import Mathlib

/-!
Verification of the signaling core of the webrtc-conference server.

The definitions below are shallow embeddings of the TypeScript source under
`src/server/src/` (`Peer.ts`, `Room.ts`, `Server.ts`, `WsServer.ts`,
`utils.ts`, `BroadcasterPeer.ts`).  Engine calls (mediasoup) are modelled by
explicit success/failure oracles passed as `Bool` arguments; event-emitter
callbacks are inlined at their registration sites, matching the synchronous
emission semantics of Node's `EventEmitter`.
-/

namespace WebrtcConference

/-! ## Peer.consume — per-replica consumer creation (src/server/src/Peer.ts) -/

/-- Observable steps of one replica iteration of `Peer.consume`. -/
inductive ConsumeEvent
  /-- `transport.consume({ ..., paused: true, ... })` succeeded: the engine
  consumer exists and is paused. -/
  | createdPaused
  /-- the consumer was stored in the peer's ledger and observers attached. -/
  | registered
  /-- the `newConsumer` protoo request to the target peer was acknowledged. -/
  | newConsumerAck
  /-- `consumer.resume()` was invoked on the engine consumer. -/
  | resumed
  deriving DecidableEq, Repr

/-- One replica iteration of the loop in `Peer.consume`
(src/server/src/Peer.ts, lines 311-373), as the list of observable steps it
performs.  `createOk` tells whether `transport.consume()` succeeds, `ackOk`
whether the `newConsumer` request is acknowledged (rather than rejected or
thrown).  On creation failure the iteration resolves immediately; on
acknowledgement failure the `catch` branch resolves without ever calling
`consumer.resume()`. -/
def consumeReplica (createOk ackOk : Bool) : List ConsumeEvent :=
  if createOk then
    if ackOk then
      [ConsumeEvent.createdPaused, ConsumeEvent.registered,
       ConsumeEvent.newConsumerAck, ConsumeEvent.resumed]
    else
      [ConsumeEvent.createdPaused, ConsumeEvent.registered]
  else
    []

/-- Final paused state of the engine consumer of one replica iteration:
`none` when no consumer was created, `some paused` otherwise.  The consumer
is created paused and only `consumer.resume()` unpauses it. -/
def consumeReplicaFinalPaused (createOk ackOk : Bool) : Option Bool :=
  if createOk then some (!ackOk) else none

/-- Router-side `get-can-consume` handler registered by the room
(src/server/src/Room.ts, `handlePeer`): with declared capabilities it defers
to `consumerRouter.canConsume`, without them it answers `false`. -/
def getCanConsume {C : Type} (routerCanConsume : C → Bool)
    (rtpCapabilities : Option C) : Bool :=
  match rtpCapabilities with
  | some caps => routerCanConsume caps
  | none => false

/-- Number of engine consumers created by `Peer.consume`
(src/server/src/Peer.ts, lines 265-381) for one producer.  The call returns
silently when the peer has no consumer-direction transport; it returns after
the capability check when `get-can-consume` answers `false`; otherwise it
runs `1 + consumerReplicas` replica iterations, each creating an engine
consumer when `transport.consume()` succeeds (`engineCreateOk i`). -/
def consumeCreatedCount {C : Type} (hasConsumerTransport : Bool)
    (rtpCapabilities : Option C) (routerCanConsume : C → Bool)
    (consumerReplicas : Nat) (engineCreateOk : Nat → Bool) : Nat :=
  if !hasConsumerTransport then 0
  else if !(getCanConsume routerCanConsume rtpCapabilities) then 0
  else ((List.range (1 + consumerReplicas)).filter
    (fun i => engineCreateOk i)).length

/-! ## Worker slot port assignment (src/server/src/Server.ts) -/

/-- Port assignment performed by the loop of
`Server.createWorkersAndWebRtcServers` (src/server/src/Server.ts, lines
132-182).  For every worker the options are cloned fresh from the
configuration and each cloned `listenInfo.port` is increased by
`portIncrement = workersAndWebRtcServers.size - 1`, where the map size is
taken before the current slot is inserted.  The accumulator holds the ports
of the slots created so far, so `acc.length` is that map size. -/
def createWorkersPorts (numWorkers : Nat) (basePort : Int) : List Int :=
  (List.range numWorkers).foldl
    (fun acc _ => acc ++ [basePort + ((acc.length : Int) - 1)]) []

/-! ## WebSocket connection-request processing (src/server/src/WsServer.ts,
src/server/src/Server.ts) -/

/-- Lookup of a URL query parameter, `none` when absent
(`URLSearchParams.get` returns `null`). -/
def getQueryParam (params : List (String × String)) (key : String) :
    Option String :=
  (params.find? (fun p => p.1 == key)).map (fun p => p.2)

/-- Decimal digit accumulator for `parseDecNat`. -/
def parseDecNatAux : List Char → Nat → Option Nat
  | [], acc => some acc
  | c :: rest, acc =>
      if c.isDigit then parseDecNatAux rest (acc * 10 + (c.toNat - 48))
      else none

/-- Value of JS `Number(s)` for a non-empty decimal digit string `s`,
`none` otherwise. -/
def parseDecNat (s : String) : Option Nat :=
  if s.data.isEmpty then none else parseDecNatAux s.data 0

/-- Payload of the `get-or-create-room` event emitted by
`WsServer.handleProtooServer` (src/server/src/WsServer.ts): the event object
carries only `roomId` and `consumerReplicas`. -/
structure GetOrCreateRoomEventArgs where
  roomId : String
  consumerReplicas : Nat
  deriving DecidableEq, Repr

/-- Query-parameter extraction of `WsServer.handleProtooServer`
(src/server/src/WsServer.ts, lines 92-122): reads `roomId`, `peerId` and
`consumerReplicas` (absent means `Number(null ?? 0) = 0`), rejects when
`roomId` or `peerId` is missing or empty (JS falsiness), and emits the
`get-or-create-room` event.  Returns the accepted peer id together with the
emitted event payload.  Numeric parameter values are assumed to be decimal
digit strings, as produced by the client URL factory. -/
def handleProtooServerExtract (params : List (String × String)) :
    Option (String × GetOrCreateRoomEventArgs) :=
  let roomId := getQueryParam params "roomId"
  let peerId := getQueryParam params "peerId"
  let consumerReplicas :=
    (parseDecNat ((getQueryParam params "consumerReplicas").getD "0")).getD 0
  match roomId, peerId with
  | some r, some p =>
      if r == "" || p == "" then none
      else some (p, { roomId := r, consumerReplicas := consumerReplicas })
  | _, _ => none

/-- Argument record of `Server.getOrCreateRoom`
(src/server/src/Server.ts, lines 320-328); `none` models a JS `undefined`
field, on which the destructuring defaults apply. -/
structure GetOrCreateRoomArgs where
  roomId : String
  consumerReplicas : Option Nat
  usePipeTransports : Option Bool
  deriving DecidableEq, Repr

/-- Forwarding done by `Server.handleWsServer` (src/server/src/Server.ts,
lines 568-577): it destructures `roomId`, `consumerReplicas` and
`usePipeTransports` from the event payload and passes them to
`getOrCreateRoom`.  The payload emitted by the WsServer has no
`usePipeTransports` property, so that field is `undefined`. -/
def handleWsServerForward (args : GetOrCreateRoomEventArgs) :
    GetOrCreateRoomArgs :=
  { roomId := args.roomId,
    consumerReplicas := some args.consumerReplicas,
    usePipeTransports := none }

/-- Defaulting in the parameter destructuring of `Server.getOrCreateRoom`:
`consumerReplicas = 0`, `usePipeTransports = false`. -/
def resolvedConsumerReplicas (args : GetOrCreateRoomArgs) : Nat :=
  args.consumerReplicas.getD 0

/-- Defaulting in the parameter destructuring of `Server.getOrCreateRoom`:
`usePipeTransports = false`. -/
def resolvedUsePipeTransports (args : GetOrCreateRoomArgs) : Bool :=
  args.usePipeTransports.getD false

/-! ## Network-throttle coordinator (src/server/src/Server.ts) -/

/-- Throttle bookkeeping of the Server: the `#networkThrottleEnabled` flag
and the `#networkThrottleEnabledByRoomId` record. -/
structure ThrottleState where
  networkThrottleEnabled : Bool
  networkThrottleEnabledByRoomId : Option String
  deriving DecidableEq, Repr

/-- Task body of `Server.stopNetworkThrottleInternal`
(src/server/src/Server.ts, lines 480-528).  `stop1Ok` tells whether
`throttle.stop()` succeeds and `stop2Ok` whether
`throttle.stop({ localhost: true })` does.  The body saves the current
flags, optimistically clears them, runs both stop calls (the second runs
even when the first failed, and its error overwrites `stopError`), and on
any failure restores the saved flags and throws the recorded error.
Returns the optimistically written state, the final state and the index
(1 or 2) of the thrown error, `none` on success. -/
def stopNetworkThrottleInternal (st : ThrottleState) (stop1Ok stop2Ok : Bool) :
    ThrottleState × ThrottleState × Option Nat :=
  let savedNetworkThrottleEnabled := st.networkThrottleEnabled
  let savedNetworkThrottleEnabledByRoomId := st.networkThrottleEnabledByRoomId
  let optimistic : ThrottleState :=
    { networkThrottleEnabled := false,
      networkThrottleEnabledByRoomId := none }
  let stopError : Option Nat :=
    if stop2Ok = false then some 2
    else if stop1Ok = false then some 1
    else none
  match stopError with
  | some e =>
      (optimistic,
       { networkThrottleEnabled := savedNetworkThrottleEnabled,
         networkThrottleEnabledByRoomId :=
           savedNetworkThrottleEnabledByRoomId },
       some e)
  | none => (optimistic, optimistic, none)

/-- Room map plus throttle bookkeeping of the Server, the state read and
written by the room `closed` handler. -/
structure ServerRoomsState where
  rooms : List String
  throttle : ThrottleState
  deriving DecidableEq, Repr

/-- Room `closed` handler installed by `Server.handleRoom`
(src/server/src/Server.ts, lines 591-604): delete the room from the map;
when the closing room is the recorded enabling room, run
`stopNetworkThrottleInternal` (its stop calls assumed to succeed here);
then unconditionally clear `#networkThrottleEnabledByRoomId` — that
assignment sits outside the `if` block.  Returns the new state and whether
a stop was issued. -/
def handleRoomClosed (st : ServerRoomsState) (roomId : String) :
    ServerRoomsState × Bool :=
  let rooms' := st.rooms.erase roomId
  if st.throttle.networkThrottleEnabledByRoomId = some roomId then
    let stopped := (stopNetworkThrottleInternal st.throttle true true).2.1
    ({ rooms := rooms',
       throttle :=
         { stopped with networkThrottleEnabledByRoomId := none } }, true)
  else
    ({ rooms := rooms',
       throttle :=
         { st.throttle with networkThrottleEnabledByRoomId := none } },
     false)

/-! ## Origin comparison (src/server/src/utils.ts) -/

/-- Parts of a parsed URL that `areSameHttpOrigins` reads: `protocol`
(with its trailing colon, as in the WHATWG URL API) and `hostname`. -/
structure ParsedUrl where
  protocol : String
  hostname : String
  deriving DecidableEq, Repr

/-- Splits a character list at the first occurrence of `"://"`, returning
the characters before and after it, `none` when it does not occur. -/
def breakOnSchemeSep : List Char → Option (List Char × List Char)
  | [] => none
  | ':' :: '/' :: '/' :: rest => some ([], rest)
  | c :: rest =>
      (breakOnSchemeSep rest).map (fun pr => (c :: pr.1, pr.2))

/-- Characters of a list up to (excluding) the first one satisfying
`stop`. -/
def takeUntilChar (stop : Char → Bool) : List Char → List Char
  | [] => []
  | c :: rest => if stop c then [] else c :: takeUntilChar stop rest

/-- Model of `new URL(s)` restricted to the fields `areSameHttpOrigins`
reads, for inputs of the shape `scheme://host[:port][/path]` in lower case
(origin headers and the configured origin string are of this shape):
the protocol is everything before `"://"` plus a colon, the hostname is the
authority part up to the first `:` or `/`.  Parsing fails (the `TypeError`
of the URL constructor) when the separator is absent or the scheme is
empty. -/
def parseUrl (s : String) : Option ParsedUrl :=
  match breakOnSchemeSep s.data with
  | none => none
  | some (scheme, rest) =>
      if scheme.isEmpty then none
      else
        let hostport := takeUntilChar (fun c => c == '/') rest
        let hostname := takeUntilChar (fun c => c == ':') hostport
        some { protocol := String.mk (scheme ++ [':']),
               hostname := String.mk hostname }

/-- `areSameHttpOrigins` from src/server/src/utils.ts (lines 24-41).  Its
own doc comment: "Whether two URLs have same HTTP scheme and hostname.
Port is ignored."  `none` models an absent header, and an empty string is
falsy in JS, so both fail the initial guard. -/
def areSameHttpOrigins (urlA urlB : Option String) : Bool :=
  match urlA, urlB with
  | some a, some b =>
      if a == "" || b == "" then false
      else
        match parseUrl a, parseUrl b with
        | some pa, some pb =>
            (pa.protocol == "http:" || pa.protocol == "https:") &&
            pa.protocol == pb.protocol &&
            pa.hostname == pb.hostname
        | _, _ => false
  | _, _ => false

/-- Origin validation of the `connectionrequest` handler
(src/server/src/WsServer.ts, lines 73-90): the request is rejected with 403
unless `areSameHttpOrigins(origin, configuredOrigin)` holds. -/
def wsOriginAccepted (origin : Option String) (configuredOrigin : String) :
    Bool :=
  areSameHttpOrigins origin (some configuredOrigin)

/-! ## Peer lifecycle events (src/server/src/Peer.ts) -/

/-- Externally visible lifecycle events a `Peer` emits. -/
inductive PeerEvt
  | closedEv
  | disconnectedEv
  deriving DecidableEq, Repr

/-- Stimuli a `Peer` reacts to.  `createTransport` is the
`createWebRtcTransport` protoo request (it has no joined guard);
`iceStateDisconnected` and `dtlsStateFailed` are the fatal
`icestatechange` / `dtlsstatechange` transport events of
`Peer.handleTransport`. -/
inductive PeerOp
  | joinTimerFire
  | joinRequest
  | protooClose
  | createTransport
  | iceStateDisconnected
  | dtlsStateFailed
  | closeCall
  deriving DecidableEq, Repr

/-- State of one `Peer` (src/server/src/Peer.ts) relevant to its lifecycle
events, plus the trace of emitted events. -/
structure PeerMachine where
  joined : Bool := false
  closed : Bool := false
  joinTimerCleared : Bool := false
  hasTransport : Bool := false
  events : List PeerEvt := []
  deriving DecidableEq, Repr

/-- `Peer.close` (src/server/src/Peer.ts, lines 224-242): return when
already closed, otherwise mark closed, close owned objects, clear the join
timer and emit `closed`. -/
def peerMachineClose (s : PeerMachine) : PeerMachine :=
  if s.closed then s
  else
    { s with
      closed := true,
      joinTimerCleared := true,
      events := s.events ++ [PeerEvt.closedEv] }

/-- One stimulus of the `Peer` lifecycle, transcribed from
src/server/src/Peer.ts:
the join-timer callback (constructor, lines 200-208) closes the peer and
emits `disconnected` only when `#joined`; the timer cannot fire once
cleared (by `join` or by `close`);
the `join` request (handleProtooRequest) throws when already joined, else
sets `#joined` and clears the timer (a closed peer's protoo peer is closed,
so no request reaches it);
the protoo `close` handler (handleProtooPeer, lines 596-607) returns when
already closed, else closes and emits `disconnected` only when `#joined`;
the `createWebRtcTransport` request stores a transport with no joined
guard;
the fatal `icestatechange` / `dtlsstatechange` handlers
(handleTransport, lines 978-1010) call `close()` and then emit
`disconnected` unconditionally. -/
def peerMachineStep (s : PeerMachine) (op : PeerOp) : PeerMachine :=
  match op with
  | PeerOp.joinTimerFire =>
      if s.joinTimerCleared then s
      else
        let s' := peerMachineClose s
        if s'.joined then
          { s' with events := s'.events ++ [PeerEvt.disconnectedEv] }
        else s'
  | PeerOp.joinRequest =>
      if s.closed || s.joined then s
      else { s with joined := true, joinTimerCleared := true }
  | PeerOp.protooClose =>
      if s.closed then s
      else
        let s' := peerMachineClose s
        if s'.joined then
          { s' with events := s'.events ++ [PeerEvt.disconnectedEv] }
        else s'
  | PeerOp.createTransport =>
      if s.closed then s else { s with hasTransport := true }
  | PeerOp.iceStateDisconnected =>
      if s.hasTransport then
        let s' := peerMachineClose s
        { s' with events := s'.events ++ [PeerEvt.disconnectedEv] }
      else s
  | PeerOp.dtlsStateFailed =>
      if s.hasTransport then
        let s' := peerMachineClose s
        { s' with events := s'.events ++ [PeerEvt.disconnectedEv] }
      else s
  | PeerOp.closeCall => peerMachineClose s

/-- Run of a `Peer` from its construction through a list of stimuli. -/
def peerMachineRun (ops : List PeerOp) : PeerMachine :=
  ops.foldl peerMachineStep {}

/-! ## Room peer registries (src/server/src/Room.ts) -/

/-- The four peer-id registries of a `Room`
(src/server/src/Room.ts): `#joiningPeers`, `#peers`,
`#joiningBroadcasterPeers`, `#broadcasterPeers`, modelled by their key
sets. -/
structure Registries where
  joiningPeers : Finset String
  peers : Finset String
  joiningBroadcasterPeers : Finset String
  broadcasterPeers : Finset String
  deriving DecidableEq

/-- Registries of a freshly created room: all empty. -/
def Registries.init : Registries :=
  { joiningPeers := {},
    peers := {},
    joiningBroadcasterPeers := {},
    broadcasterPeers := {} }

/-- Effect of `Room.mayCloseExistingPeer` (src/server/src/Room.ts, lines
396-441): whichever of the four registries holds the id, the entry is
closed, and its synchronously invoked `closed` handler
(`handlePeer` / `handleBroadcasterPeer`) deletes the id from its
registries.  Net effect: the id is absent from all four registries. -/
def mayCloseExistingPeer (r : Registries) (id : String) : Registries :=
  { joiningPeers := r.joiningPeers.erase id,
    peers := r.peers.erase id,
    joiningBroadcasterPeers := r.joiningBroadcasterPeers.erase id,
    broadcasterPeers := r.broadcasterPeers.erase id }

/-- Registry-level operations a room performs
(src/server/src/Room.ts).  The two `joined` events are emitted by peer
objects currently held in the corresponding joining registry (a superseded
peer was closed, its session torn down, before its id was re-registered),
hence the guards. -/
inductive RegOp
  /-- `processWsConnection`: `mayCloseExistingPeer`, then register the new
  `Peer` in `#joiningPeers`. -/
  | connectPeer (id : String)
  /-- `handlePeer` `joined` handler: move the id from `#joiningPeers` to
  `#peers`. -/
  | peerJoined (id : String)
  /-- `handlePeer` `closed` handler: delete the id from `#joiningPeers` and
  `#peers`. -/
  | peerClosed (id : String)
  /-- `handleApiRequest` `createBroadcasterPeer`: `mayCloseExistingPeer`,
  then register the new `BroadcasterPeer` in `#joiningBroadcasterPeers`. -/
  | createBroadcaster (id : String)
  /-- `handleBroadcasterPeer` `joined` handler: move the id from
  `#joiningBroadcasterPeers` to `#broadcasterPeers`. -/
  | broadcasterJoined (id : String)
  /-- `handleBroadcasterPeer` `closed` handler: delete the id from both
  broadcaster registries. -/
  | broadcasterClosed (id : String)
  deriving DecidableEq

/-- Registry transition of one room operation, from src/server/src/Room.ts
(`processWsConnection`, `handlePeer`, `handleApiRequest`,
`handleBroadcasterPeer`). -/
def regStep (r : Registries) (op : RegOp) : Registries :=
  match op with
  | RegOp.connectPeer id =>
      let r' := mayCloseExistingPeer r id
      { r' with joiningPeers := insert id r'.joiningPeers }
  | RegOp.peerJoined id =>
      if id ∈ r.joiningPeers then
        { r with
          joiningPeers := r.joiningPeers.erase id,
          peers := insert id r.peers }
      else r
  | RegOp.peerClosed id =>
      { r with
        joiningPeers := r.joiningPeers.erase id,
        peers := r.peers.erase id }
  | RegOp.createBroadcaster id =>
      let r' := mayCloseExistingPeer r id
      { r' with
        joiningBroadcasterPeers := insert id r'.joiningBroadcasterPeers }
  | RegOp.broadcasterJoined id =>
      if id ∈ r.joiningBroadcasterPeers then
        { r with
          joiningBroadcasterPeers := r.joiningBroadcasterPeers.erase id,
          broadcasterPeers := insert id r.broadcasterPeers }
      else r
  | RegOp.broadcasterClosed id =>
      { r with
        joiningBroadcasterPeers := r.joiningBroadcasterPeers.erase id,
        broadcasterPeers := r.broadcasterPeers.erase id }

/-- Run of room registry operations from the initial (empty) registries. -/
def regRun (ops : List RegOp) : Registries :=
  ops.foldl regStep Registries.init

/-- Number of the four registries holding a given peer id. -/
def registriesHolding (r : Registries) (id : String) : Nat :=
  (if id ∈ r.joiningPeers then 1 else 0) +
  (if id ∈ r.peers then 1 else 0) +
  (if id ∈ r.joiningBroadcasterPeers then 1 else 0) +
  (if id ∈ r.broadcasterPeers then 1 else 0)

/-- Registry invariant (I1): every peer id is present in at most one of the
four registries. -/
def registriesDisjoint (r : Registries) : Prop :=
  ∀ id : String, registriesHolding r id ≤ 1

/-! ## close() idempotence (src/server/src/Server.ts, Room.ts, Peer.ts,
BroadcasterPeer.ts) -/

/-- State touched by `Peer.close` (src/server/src/Peer.ts, lines 224-242):
the `#closed` flag, the owned open transports, the protoo session, the join
timer, and a count of `closed` emissions. -/
structure PeerCloseState where
  closed : Bool
  transportsOpen : Nat
  protooPeerOpen : Bool
  joinTimerActive : Bool
  closedEmits : Nat
  deriving DecidableEq, Repr

/-- `Peer.close`: return when `#closed`, else mark closed, close every
owned transport, close the protoo peer, clear the join timer and emit
`closed`. -/
def peerCloseFn (s : PeerCloseState) : PeerCloseState :=
  if s.closed then s
  else
    { closed := true,
      transportsOpen := 0,
      protooPeerOpen := false,
      joinTimerActive := false,
      closedEmits := s.closedEmits + 1 }

/-- State touched by `Room.close` (src/server/src/Room.ts, lines 215-247). -/
structure RoomCloseState where
  closed : Bool
  joiningPeersOpen : Nat
  peersOpen : Nat
  joiningBroadcasterPeersOpen : Nat
  broadcasterPeersOpen : Nat
  protooRoomOpen : Bool
  producerRouterOpen : Bool
  consumerRouterOpen : Bool
  closedEmits : Nat
  deriving DecidableEq, Repr

/-- `Room.close`: return when `#closed`, else mark closed, close every
peer and broadcaster peer, the protoo room and both routers, and emit
`closed`. -/
def roomCloseFn (s : RoomCloseState) : RoomCloseState :=
  if s.closed then s
  else
    { closed := true,
      joiningPeersOpen := 0,
      peersOpen := 0,
      joiningBroadcasterPeersOpen := 0,
      broadcasterPeersOpen := 0,
      protooRoomOpen := false,
      producerRouterOpen := false,
      consumerRouterOpen := false,
      closedEmits := s.closedEmits + 1 }

/-- State touched by `Server.close` (src/server/src/Server.ts, lines
266-301). -/
structure ServerCloseState where
  closed : Bool
  roomCreationQueueStopped : Bool
  roomsOpen : Nat
  workersOpen : Nat
  httpServerListening : Bool
  httpConnectionsOpen : Nat
  networkThrottleEnabled : Bool
  throttleStopIssued : Bool
  closedEmits : Nat
  deriving DecidableEq, Repr

/-- `Server.close`: return when `#closed`, else mark closed, stop the room
creation queue, close rooms, workers, the HTTP server and its connections,
issue a throttle stop when the throttle is enabled, and emit `closed`. -/
def serverCloseFn (s : ServerCloseState) : ServerCloseState :=
  if s.closed then s
  else
    { closed := true,
      roomCreationQueueStopped := true,
      roomsOpen := 0,
      workersOpen := 0,
      httpServerListening := false,
      httpConnectionsOpen := 0,
      networkThrottleEnabled := s.networkThrottleEnabled,
      throttleStopIssued := s.throttleStopIssued || s.networkThrottleEnabled,
      closedEmits := s.closedEmits + 1 }

/-- State touched by `BroadcasterPeer.close`
(src/server/src/BroadcasterPeer.ts, lines 187-201). -/
structure BroadcasterCloseState where
  closed : Bool
  transportsOpen : Nat
  closedEmits : Nat
  deriving DecidableEq, Repr

/-- `BroadcasterPeer.close`: return when `#closed`, else mark closed, close
every owned plain transport and emit `closed`. -/
def broadcasterPeerCloseFn (s : BroadcasterCloseState) :
    BroadcasterCloseState :=
  if s.closed then s
  else
    { closed := true,
      transportsOpen := 0,
      closedEmits := s.closedEmits + 1 }

/-! ## Theorems -/

/-- C1: in per-target consumer creation (`Peer.consume`), every replica's
engine consumer is created paused, and `consumer.resume()` is invoked only
after the `newConsumer` request was successfully acknowledged — in the
replica's event trace the acknowledgement strictly precedes the resume; on
acknowledgement failure `resume()` is never called and the consumer remains
paused. -/
theorem consume_ack_strictly_precedes_resume (createOk ackOk : Bool) :
    ((ConsumeEvent.createdPaused ∈ consumeReplica createOk ackOk) =
      (createOk = true)) ∧
    (ConsumeEvent.resumed ∈ consumeReplica createOk ackOk →
      ackOk = true ∧
      ConsumeEvent.newConsumerAck ∈ consumeReplica createOk ackOk ∧
      (consumeReplica createOk ackOk).indexOf ConsumeEvent.newConsumerAck <
        (consumeReplica createOk ackOk).indexOf ConsumeEvent.resumed) ∧
    (ackOk = false →
      ConsumeEvent.resumed ∉ consumeReplica createOk ackOk ∧
      (createOk = true →
        consumeReplicaFinalPaused createOk ackOk = some true)) := by
  cases createOk <;> cases ackOk <;> decide

/-- Witness for `consume_ack_strictly_precedes_resume` at a successful
creation and acknowledgement. -/
theorem consume_ack_strictly_precedes_resume_witness :
    ConsumeEvent.resumed ∈ consumeReplica true true ∧
    (consumeReplica true true).indexOf ConsumeEvent.newConsumerAck <
      (consumeReplica true true).indexOf ConsumeEvent.resumed := by
  refine ⟨by decide, ?_⟩
  exact ((consume_ack_strictly_precedes_resume true true).2.1 (by decide)).2.2

/-- C2: `Peer.consume` creates no consumer when the peer has no
consumer-direction transport; with absent receive capabilities the
capability check answers `false` and no consumer is created; when the
transport exists, the capability check passes and the engine consumer
creations succeed, exactly `1 + consumerReplicas` consumers are created. -/
theorem consume_creates_replica_count {C : Type} (hasConsumerTransport : Bool)
    (rtpCapabilities : Option C) (routerCanConsume : C → Bool)
    (consumerReplicas : Nat) (engineCreateOk : Nat → Bool) :
    (hasConsumerTransport = false →
      consumeCreatedCount hasConsumerTransport rtpCapabilities
        routerCanConsume consumerReplicas engineCreateOk = 0) ∧
    (rtpCapabilities = none →
      getCanConsume routerCanConsume rtpCapabilities = false ∧
      consumeCreatedCount hasConsumerTransport rtpCapabilities
        routerCanConsume consumerReplicas engineCreateOk = 0) ∧
    (hasConsumerTransport = true →
      getCanConsume routerCanConsume rtpCapabilities = true →
      (∀ i, engineCreateOk i = true) →
      consumeCreatedCount hasConsumerTransport rtpCapabilities
        routerCanConsume consumerReplicas engineCreateOk =
        1 + consumerReplicas) := by
  refine ⟨?_, ?_, ?_⟩
  · intro h
    simp [consumeCreatedCount, h]
  · intro h
    subst h
    refine ⟨rfl, ?_⟩
    cases hasConsumerTransport <;> simp [consumeCreatedCount, getCanConsume]
  · intro h1 h2 h3
    simp only [consumeCreatedCount, h1, h2, Bool.not_true, Bool.false_eq_true,
      if_false]
    rw [List.filter_eq_self.mpr (fun a _ => h3 a), List.length_range]

/-- Witness for `consume_creates_replica_count`: a capable peer with two
consumer replicas gets three engine consumers. -/
theorem consume_creates_replica_count_witness :
    consumeCreatedCount (C := Nat) true (some 0) (fun _ => true) 2
      (fun _ => true) = 3 := by
  exact (consume_creates_replica_count (C := Nat) true (some 0)
    (fun _ => true) 2 (fun _ => true)).2.2 rfl rfl (fun i => rfl)

/-- C3: evaluation of the worker-slot port assignment at the failing input.
With two workers and base port 44444 the code assigns port 44443 to slot 0
and 44444 to slot 1 (`portIncrement = size - 1` evaluates to `idx - 1`),
while the claim and the code's own comment ("we increase the port for each
Worker") require 44444 and 44445. -/
theorem createWorkersPorts_off_by_one :
    createWorkersPorts 2 44444 = [44443, 44444] ∧
    createWorkersPorts 2 44444 ≠ [44444, 44445] := by
  decide

/-- C4: evaluation of the WebSocket connection processing pipeline at the
failing input.  For a URL carrying `usePipeTransports=true` the extraction
accepts the connection, forwards `roomId` and `consumerReplicas`
(defaulting to 0), but the room is resolved with `usePipeTransports =
false`: the parameter is never extracted by the WsServer, so
`Server.handleWsServer` destructures `undefined` and `getOrCreateRoom`
applies its default. -/
theorem usePipeTransports_param_dropped :
    (handleProtooServerExtract
        [("roomId", "R"), ("peerId", "P"), ("usePipeTransports", "true")]).map
      (fun pr =>
        (pr.1, pr.2.roomId,
         resolvedConsumerReplicas (handleWsServerForward pr.2),
         resolvedUsePipeTransports (handleWsServerForward pr.2))) =
      some ("P", "R", 0, false) := by
  decide

/-- C5 counterexample: with the throttle enabled by room "A", closing the
unrelated room "B" issues no stop but clears the recorded enabling room
id, so the throttle state is not left unchanged as the claim states. -/
theorem room_close_clears_record_counterexample :
    (handleRoomClosed
        { rooms := ["A", "B"],
          throttle :=
            { networkThrottleEnabled := true,
              networkThrottleEnabledByRoomId := some "A" } } "B").2 = false ∧
    (handleRoomClosed
        { rooms := ["A", "B"],
          throttle :=
            { networkThrottleEnabled := true,
              networkThrottleEnabledByRoomId := some "A" } }
            "B").1.throttle.networkThrottleEnabledByRoomId = none ∧
    (handleRoomClosed
        { rooms := ["A", "B"],
          throttle :=
            { networkThrottleEnabled := true,
              networkThrottleEnabledByRoomId := some "A" } } "B").1.throttle ≠
      { networkThrottleEnabled := true,
        networkThrottleEnabledByRoomId := some "A" } := by
  decide

/-- C5 (amended): when a room closes, a throttle stop is issued iff the
closing room is the recorded enabling room (in which case the enabled flag
is cleared); closing any other room leaves the enabled flag unchanged, but
the recorded enabling room id is cleared on every room close. -/
theorem room_close_throttle_stop (st : ServerRoomsState) (roomId : String) :
    ((handleRoomClosed st roomId).2 = true ↔
      st.throttle.networkThrottleEnabledByRoomId = some roomId) ∧
    (handleRoomClosed st roomId).1.throttle.networkThrottleEnabledByRoomId =
      none ∧
    (st.throttle.networkThrottleEnabledByRoomId ≠ some roomId →
      (handleRoomClosed st roomId).1.throttle.networkThrottleEnabled =
        st.throttle.networkThrottleEnabled) ∧
    (st.throttle.networkThrottleEnabledByRoomId = some roomId →
      (handleRoomClosed st roomId).1.throttle.networkThrottleEnabled =
        false) := by
  by_cases h : st.throttle.networkThrottleEnabledByRoomId = some roomId <;>
    simp [handleRoomClosed, stopNetworkThrottleInternal, h]

/-- Witness for `room_close_throttle_stop`: the recorded room closing
clears the enabled flag; an unrelated room closing leaves it set. -/
theorem room_close_throttle_stop_witness :
    (handleRoomClosed
        { rooms := ["A"],
          throttle :=
            { networkThrottleEnabled := true,
              networkThrottleEnabledByRoomId := some "A" } }
        "A").1.throttle.networkThrottleEnabled = false ∧
    (handleRoomClosed
        { rooms := ["B"],
          throttle :=
            { networkThrottleEnabled := true,
              networkThrottleEnabledByRoomId := some "A" } }
        "B").1.throttle.networkThrottleEnabled = true := by
  constructor
  · exact (room_close_throttle_stop
      { rooms := ["A"],
        throttle :=
          { networkThrottleEnabled := true,
            networkThrottleEnabledByRoomId := some "A" } } "A").2.2.2
      (by decide)
  · exact (room_close_throttle_stop
      { rooms := ["B"],
        throttle :=
          { networkThrottleEnabled := true,
            networkThrottleEnabledByRoomId := some "A" } } "B").2.2.1
      (by decide)

/-- C6: `stopNetworkThrottleInternal` first writes the disabled state with
a cleared record; when both shaper stop calls succeed that state is kept
and no error is thrown; when either fails, the prior flags are restored
exactly and the last error is thrown (the localhost-scope error when that
call fails, else the default-scope error). -/
theorem stop_network_throttle_restores_on_failure (st : ThrottleState)
    (stop1Ok stop2Ok : Bool) :
    (stopNetworkThrottleInternal st stop1Ok stop2Ok).1 =
      { networkThrottleEnabled := false,
        networkThrottleEnabledByRoomId := none } ∧
    (stop1Ok = true → stop2Ok = true →
      (stopNetworkThrottleInternal st stop1Ok stop2Ok).2 =
        ({ networkThrottleEnabled := false,
           networkThrottleEnabledByRoomId := none }, none)) ∧
    (stop2Ok = false →
      (stopNetworkThrottleInternal st stop1Ok stop2Ok).2 = (st, some 2)) ∧
    (stop1Ok = false → stop2Ok = true →
      (stopNetworkThrottleInternal st stop1Ok stop2Ok).2 = (st, some 1)) := by
  cases stop1Ok <;> cases stop2Ok <;>
    simp [stopNetworkThrottleInternal]

/-- Witness for `stop_network_throttle_restores_on_failure`: a failing
default-scope stop restores the enabled-by-room state and surfaces error
1. -/
theorem stop_network_throttle_restores_on_failure_witness :
    (stopNetworkThrottleInternal
        { networkThrottleEnabled := true,
          networkThrottleEnabledByRoomId := some "A" } false true).2 =
      ({ networkThrottleEnabled := true,
         networkThrottleEnabledByRoomId := some "A" }, some 1) := by
  exact (stop_network_throttle_restores_on_failure
    { networkThrottleEnabled := true,
      networkThrottleEnabledByRoomId := some "A" } false true).2.2.2 rfl rfl

/-- C7 counterexample: an Origin header that differs from the configured
origin only in the port is accepted, so connections are not rejected
whenever the Origin differs in any component. -/
theorem origin_port_difference_accepted_counterexample :
    wsOriginAccepted (some "http://example.com:9999")
      "http://example.com:4443" = true := by
  decide

/-- C7 (amended): a connection's Origin check passes iff the header is
present and both it and the configured origin parse as URLs, the Origin's
protocol is `http:` or `https:` and equals the configured origin's
protocol, and the hostnames are equal; ports (and any other components)
are ignored, as the doc comment of `areSameHttpOrigins` states. -/
theorem origin_check_scheme_and_hostname_only (origin : Option String)
    (configuredOrigin : String) :
    wsOriginAccepted origin configuredOrigin = true ↔
      ∃ a, origin = some a ∧ a ≠ "" ∧ configuredOrigin ≠ "" ∧
        ∃ pa pb, parseUrl a = some pa ∧
          parseUrl configuredOrigin = some pb ∧
          (pa.protocol = "http:" ∨ pa.protocol = "https:") ∧
          pa.protocol = pb.protocol ∧ pa.hostname = pb.hostname := by
  cases origin with
  | none => simp [wsOriginAccepted, areSameHttpOrigins]
  | some a =>
      simp only [wsOriginAccepted, areSameHttpOrigins, Option.some.injEq]
      by_cases ha : a = ""
      · simp [ha]
      · by_cases hb : configuredOrigin = ""
        · simp [ha, hb]
        · rw [show (a == "" || configuredOrigin == "") = false by
            simp [ha, hb]]
          simp only [Bool.false_eq_true, if_false]
          cases h1 : parseUrl a with
          | none => simp [h1, ha, hb]
          | some pa =>
              cases h2 : parseUrl configuredOrigin with
              | none => simp [h1, h2, ha, hb]
              | some pb =>
                  constructor
                  · intro h
                    refine ⟨a, rfl, ha, hb, pa, pb, h1, rfl, ?_⟩
                    simpa [Bool.and_eq_true, Bool.or_eq_true, beq_iff_eq,
                      and_assoc] using h
                  · rintro ⟨a', ha', -, -, pa', pb', hpa', hpb', hp1, hp2, hp3⟩
                    cases ha'
                    rw [h1] at hpa'
                    cases hpa'
                    cases hpb'
                    simp only [Bool.and_eq_true, Bool.or_eq_true, beq_iff_eq]
                    exact ⟨⟨hp1, hp2⟩, hp3⟩

/-- C8: evaluation of the Peer lifecycle at the failing input.  A peer
that never joins but has created a WebRTC transport emits `disconnected`
when the transport's ICE state turns `disconnected` — the fatal
transport-state handlers of `Peer.handleTransport` emit unconditionally,
contradicting the claim (and the event's own doc comment) that
`disconnected` is only emitted for joined peers.  The join-timer part of
the claim does hold: timer expiry before join closes the peer with no
`disconnected`. -/
theorem disconnected_emitted_for_never_joined_peer :
    (peerMachineRun
      [PeerOp.createTransport, PeerOp.iceStateDisconnected]).joined = false ∧
    (peerMachineRun
      [PeerOp.createTransport, PeerOp.iceStateDisconnected]).events =
      [PeerEvt.closedEv, PeerEvt.disconnectedEv] ∧
    (peerMachineRun [PeerOp.joinTimerFire]).events = [PeerEvt.closedEv] := by
  decide

/-- A peer id is held by at most one registry exactly when no two
registries both hold it. -/
theorem registriesHolding_le_one_iff (r : Registries) (id : String) :
    registriesHolding r id ≤ 1 ↔
      (¬(id ∈ r.joiningPeers ∧ id ∈ r.peers) ∧
       ¬(id ∈ r.joiningPeers ∧ id ∈ r.joiningBroadcasterPeers) ∧
       ¬(id ∈ r.joiningPeers ∧ id ∈ r.broadcasterPeers) ∧
       ¬(id ∈ r.peers ∧ id ∈ r.joiningBroadcasterPeers) ∧
       ¬(id ∈ r.peers ∧ id ∈ r.broadcasterPeers) ∧
       ¬(id ∈ r.joiningBroadcasterPeers ∧ id ∈ r.broadcasterPeers)) := by
  unfold registriesHolding
  by_cases h1 : id ∈ r.joiningPeers <;> by_cases h2 : id ∈ r.peers <;>
    by_cases h3 : id ∈ r.joiningBroadcasterPeers <;>
    by_cases h4 : id ∈ r.broadcasterPeers <;> simp [h1, h2, h3, h4]

set_option maxHeartbeats 2000000 in
/-- Every single room registry operation preserves the disjointness of the
four peer-id registries. -/
theorem regStep_preserves_disjoint (r : Registries) (op : RegOp)
    (h : registriesDisjoint r) : registriesDisjoint (regStep r op) := by
  intro id'
  have h' := (registriesHolding_le_one_iff r id').mp (h id')
  rw [registriesHolding_le_one_iff]
  cases op with
  | connectPeer id =>
      by_cases hid : id' = id
      · subst hid
        simp [regStep, mayCloseExistingPeer, Finset.mem_insert,
          Finset.mem_erase]
      · simp [regStep, mayCloseExistingPeer, Finset.mem_insert,
          Finset.mem_erase, hid]
        tauto
  | peerJoined id =>
      by_cases hjp : id ∈ r.joiningPeers
      · by_cases hid : id' = id
        · subst hid
          simp [regStep, hjp, Finset.mem_insert, Finset.mem_erase]
          tauto
        · simp [regStep, hjp, Finset.mem_insert, Finset.mem_erase, hid]
          tauto
      · simp [regStep, hjp]
        tauto
  | peerClosed id =>
      by_cases hid : id' = id
      · subst hid
        simp [regStep, Finset.mem_erase]
        tauto
      · simp [regStep, Finset.mem_erase, hid]
        tauto
  | createBroadcaster id =>
      by_cases hid : id' = id
      · subst hid
        simp [regStep, mayCloseExistingPeer, Finset.mem_insert,
          Finset.mem_erase]
      · simp [regStep, mayCloseExistingPeer, Finset.mem_insert,
          Finset.mem_erase, hid]
        tauto
  | broadcasterJoined id =>
      by_cases hjp : id ∈ r.joiningBroadcasterPeers
      · by_cases hid : id' = id
        · subst hid
          simp [regStep, hjp, Finset.mem_insert, Finset.mem_erase]
          tauto
        · simp [regStep, hjp, Finset.mem_insert, Finset.mem_erase, hid]
          tauto
      · simp [regStep, hjp]
        tauto
  | broadcasterClosed id =>
      by_cases hid : id' = id
      · subst hid
        simp [regStep, Finset.mem_erase]
        tauto
      · simp [regStep, Finset.mem_erase, hid]
        tauto

/-- C9: after any sequence of room operations — session attachment, peer
join, peer close, broadcaster creation, broadcaster join, broadcaster
close — every peer id is present in at most one of the four registries
`joiningPeers`, `peers`, `joiningBroadcasterPeers`, `broadcasterPeers`. -/
theorem room_registries_pairwise_disjoint (ops : List RegOp) :
    registriesDisjoint (regRun ops) := by
  have hgen : ∀ r, registriesDisjoint r →
      registriesDisjoint (ops.foldl regStep r) := by
    induction ops with
    | nil => intro r h; exact h
    | cons op rest ih =>
        intro r h
        exact ih (regStep r op) (regStep_preserves_disjoint r op h)
  refine hgen Registries.init ?_
  intro id
  simp [Registries.init, registriesHolding]

/-- C10: `close()` on Peer, Room, Server and BroadcasterPeer is
idempotent: a call on a closed object returns without modifying any state,
repeated calls equal a single call, and the `closed` event count rises by
exactly one on the first call only. -/
theorem close_is_idempotent :
    (∀ s : PeerCloseState,
      peerCloseFn (peerCloseFn s) = peerCloseFn s ∧
      (s.closed = true → peerCloseFn s = s) ∧
      (s.closed = false →
        (peerCloseFn s).closedEmits = s.closedEmits + 1) ∧
      (∀ n, Nat.iterate peerCloseFn n (peerCloseFn s) = peerCloseFn s)) ∧
    (∀ s : RoomCloseState,
      roomCloseFn (roomCloseFn s) = roomCloseFn s ∧
      (s.closed = true → roomCloseFn s = s) ∧
      (s.closed = false →
        (roomCloseFn s).closedEmits = s.closedEmits + 1) ∧
      (∀ n, Nat.iterate roomCloseFn n (roomCloseFn s) = roomCloseFn s)) ∧
    (∀ s : ServerCloseState,
      serverCloseFn (serverCloseFn s) = serverCloseFn s ∧
      (s.closed = true → serverCloseFn s = s) ∧
      (s.closed = false →
        (serverCloseFn s).closedEmits = s.closedEmits + 1) ∧
      (∀ n, Nat.iterate serverCloseFn n (serverCloseFn s) = serverCloseFn s)) ∧
    (∀ s : BroadcasterCloseState,
      broadcasterPeerCloseFn (broadcasterPeerCloseFn s) =
        broadcasterPeerCloseFn s ∧
      (s.closed = true → broadcasterPeerCloseFn s = s) ∧
      (s.closed = false →
        (broadcasterPeerCloseFn s).closedEmits = s.closedEmits + 1) ∧
      (∀ n, Nat.iterate broadcasterPeerCloseFn n (broadcasterPeerCloseFn s) =
        broadcasterPeerCloseFn s)) := by
  refine ⟨fun s => ⟨?_, ?_, ?_, ?_⟩, fun s => ⟨?_, ?_, ?_, ?_⟩,
    fun s => ⟨?_, ?_, ?_, ?_⟩, fun s => ⟨?_, ?_, ?_, ?_⟩⟩
  · by_cases h : s.closed <;> simp [peerCloseFn, h]
  · intro h; simp [peerCloseFn, h]
  · intro h; simp [peerCloseFn, h]
  · intro n
    apply Function.iterate_fixed
    by_cases h : s.closed <;> simp [peerCloseFn, h]
  · by_cases h : s.closed <;> simp [roomCloseFn, h]
  · intro h; simp [roomCloseFn, h]
  · intro h; simp [roomCloseFn, h]
  · intro n
    apply Function.iterate_fixed
    by_cases h : s.closed <;> simp [roomCloseFn, h]
  · by_cases h : s.closed <;> simp [serverCloseFn, h]
  · intro h; simp [serverCloseFn, h]
  · intro h; simp [serverCloseFn, h]
  · intro n
    apply Function.iterate_fixed
    by_cases h : s.closed <;> simp [serverCloseFn, h]
  · by_cases h : s.closed <;> simp [broadcasterPeerCloseFn, h]
  · intro h; simp [broadcasterPeerCloseFn, h]
  · intro h; simp [broadcasterPeerCloseFn, h]
  · intro n
    apply Function.iterate_fixed
    by_cases h : s.closed <;> simp [broadcasterPeerCloseFn, h]

/-- Witness for `close_is_idempotent` at an open peer, room, server and
broadcaster peer. -/
theorem close_is_idempotent_witness :
    (peerCloseFn { closed := false, transportsOpen := 2,
                   protooPeerOpen := true, joinTimerActive := true,
                   closedEmits := 0 }).closedEmits = 1 ∧
    (roomCloseFn { closed := false, joiningPeersOpen := 1, peersOpen := 2,
                   joiningBroadcasterPeersOpen := 0,
                   broadcasterPeersOpen := 1, protooRoomOpen := true,
                   producerRouterOpen := true, consumerRouterOpen := true,
                   closedEmits := 0 }).closedEmits = 1 ∧
    (serverCloseFn { closed := false, roomCreationQueueStopped := false,
                     roomsOpen := 3, workersOpen := 2,
                     httpServerListening := true, httpConnectionsOpen := 5,
                     networkThrottleEnabled := true,
                     throttleStopIssued := false,
                     closedEmits := 0 }).closedEmits = 1 ∧
    (broadcasterPeerCloseFn { closed := false, transportsOpen := 1,
                              closedEmits := 0 }).closedEmits = 1 := by
  refine ⟨?_, ?_, ?_, ?_⟩
  · exact (close_is_idempotent.1 _).2.2.1 rfl
  · exact (close_is_idempotent.2.1 _).2.2.1 rfl
  · exact (close_is_idempotent.2.2.1 _).2.2.1 rfl
  · exact (close_is_idempotent.2.2.2 _).2.2.1 rfl

end WebrtcConference
